import Mathlib

/-!
Shallow embedding of `riak/riak_object.py` (the client-side replicated
record of the riak-python-client), together with proofs of the behavioural
properties claimed by its specification.

Conventions of the embedding:
- Python byte strings are `List Nat` with every element `< 256`.
- Fallible Python code returns `Except PyErr α`; raising an exception is
  `.error`, normal return is `.ok`.
- The mutable `self` is passed and returned explicitly: a method that
  mutates the object returns the updated object.
- The `client` (transport) collaborator is not stored inside the record;
  every operation that calls it takes the corresponding transport function
  as an explicit argument, so theorems can quantify over transport
  behaviour and observe exactly which arguments the source passes to it.
- The Python 3 branch of the source is modelled (`six.PY2` is false).
-/

set_option linter.unusedVariables false

namespace Riak

/-- Python exception values raised by the embedded code: `keyError` is the
`KeyError` a dict subscript raises, `valueError` is `ValueError`,
`conflictError` is `riak.ConflictError` (message `none` for a bare
`ConflictError()` call), `typeError` is `TypeError`. -/
inductive PyErr where
  | keyError (key : String)
  | valueError (msg : String)
  | conflictError (msg : Option String)
  | typeError (msg : String)
deriving DecidableEq

/-- Python values held by the delegated content fields; `pynone` is `None`. -/
inductive PyVal where
  | pynone
  | str (s : String)
  | bytes (b : List Nat)
  | int (n : Int)
  | bool (b : Bool)
deriving DecidableEq

/-- Modelled from the spec: `RiakContent` (one "Version", i.e. sibling value)
lives in `riak/content.py`, which is not among the embedded sources. Spec §3
"Version" lists its attributes: payload and metadata fields, link and
secondary-index containers, and "an existence flag distinguishing a real value
from a tombstone"; §4.2 says it is a plain value container with no conflict
logic. A fresh Version starts not-yet-existing (it has not been read back from
the store). -/
structure RiakContent where
  data : PyVal := .pynone
  encoded_data : PyVal := .pynone
  charset : PyVal := .pynone
  content_type : PyVal := .pynone
  content_encoding : PyVal := .pynone
  last_modified : PyVal := .pynone
  etag : PyVal := .pynone
  usermeta : PyVal := .pynone
  links : List (String × String × String) := []
  indexes : List (String × String) := []
  «exists» : Bool := false
deriving DecidableEq

/-- Modelled from the spec: the fresh Version materialized by
`RiakContent(self)` in the source. -/
def RiakContent.new : RiakContent := {}

/-- Modelled from the spec (§4.2): `add_index(name, value)` appends a
name/value pair, "allowing duplicates across calls unless the name already
holds that exact value". -/
def RiakContent.add_index (c : RiakContent) (field value : String) : RiakContent :=
  if (field, value) ∈ c.indexes then c
  else { c with indexes := c.indexes ++ [(field, value)] }

/-- Modelled from the spec (§4.2): index removal "is a no-op if the name/value
is absent (not an error)". With a value it removes that exact pair, without one
it removes every entry under the name. -/
def RiakContent.remove_index (c : RiakContent) (field : String) (value : Option String) : RiakContent :=
  match value with
  | some v => { c with indexes := c.indexes.filter (fun p => p ≠ (field, v)) }
  | none => { c with indexes := c.indexes.filter (fun p => p.1 ≠ field) }

/-- Modelled from the spec (§4.2): `set_index(name, values)` "replaces all
values for a name". -/
def RiakContent.set_index (c : RiakContent) (field : String) (values : List String) : RiakContent :=
  { c with indexes := (c.indexes.filter (fun p => p.1 ≠ field)) ++ values.map (fun v => (field, v)) }

/-- Modelled from the spec (§4.2): `add_link(bucket, key, tag)` appends to the
link container. -/
def RiakContent.add_link (c : RiakContent) (bucket key tag : String) : RiakContent :=
  { c with links := c.links ++ [(bucket, key, tag)] }

/-- A resolver reduces a sibling list to a (smaller) sibling list (spec §3). -/
abbrev Resolver := List RiakContent → List RiakContent

/-- A Python attribute slot that may hold `None`, a callable, or some other,
non-callable value: exactly the three cases that `_get_resolver` and
`_set_resolver` distinguish via `callable(x)` and `x is None`. -/
inductive ResolverSlot where
  | pynone
  | callable (f : Resolver)
  | notCallable (v : PyVal)

/-- Modelled from the spec (§6): the bucket collaborator exposes `name` and a
configured `resolver`. `oid` stands for Python object identity, which is what
the default `hash` of an otherwise-opaque object consumes. -/
structure Bucket where
  oid : Nat
  name : String
  resolver : ResolverSlot

/-! ### base64 (model of the Python standard library `base64` module)

`b64encode`/`b64decode` below are the standard base64 transform used by the
`VClock` encoders table: 3 input bytes become 4 alphabet characters, a final
1- or 2-byte group is padded with `'='` (ASCII 61). -/

/-- The base64 alphabet: sextet value to ASCII code. -/
def b64char (n : Nat) : Nat :=
  if n < 26 then 65 + n
  else if n < 52 then 97 + (n - 26)
  else if n < 62 then 48 + (n - 52)
  else if n = 62 then 43
  else 47

/-- ASCII code back to sextet value (inverse of `b64char` on the alphabet). -/
def b64val (c : Nat) : Nat :=
  if 65 ≤ c ∧ c ≤ 90 then c - 65
  else if 97 ≤ c ∧ c ≤ 122 then 26 + (c - 97)
  else if 48 ≤ c ∧ c ≤ 57 then 52 + (c - 48)
  else if c = 43 then 62
  else 63

/-- Standard base64 encoding of a byte sequence (`base64.b64encode`). -/
def b64encode : List Nat → List Nat
  | a :: b :: c :: rest =>
    b64char (a / 4) :: b64char ((a % 4) * 16 + b / 16) ::
      b64char ((b % 16) * 4 + c / 64) :: b64char (c % 64) :: b64encode rest
  | [a, b] =>
    [b64char (a / 4), b64char ((a % 4) * 16 + b / 16), b64char ((b % 16) * 4), 61]
  | [a] =>
    [b64char (a / 4), b64char ((a % 4) * 16), 61, 61]
  | [] => []

/-- Standard base64 decoding of an encoded sequence (`base64.b64decode`),
total on well-formed encodings (the only inputs the proofs evaluate it on). -/
def b64decode : List Nat → List Nat
  | c1 :: c2 :: c3 :: c4 :: rest =>
    if c3 = 61 ∧ c4 = 61 then
      [b64val c1 * 4 + b64val c2 / 16]
    else if c4 = 61 then
      [b64val c1 * 4 + b64val c2 / 16,
        (b64val c2 % 16) * 16 + b64val c3 / 4]
    else
      (b64val c1 * 4 + b64val c2 / 16) ::
        ((b64val c2 % 16) * 16 + b64val c3 / 4) ::
        ((b64val c3 % 4) * 64 + b64val c4) :: b64decode rest
  | _ => []

/-! ### VClock -/

/-- A `VClock` object: `_vclock` is the raw decoded byte sequence. `oid`
models Python object identity — the class defines no `__eq__`/`__hash__`, so
the default identity-based ones apply wherever it is hashed or compared. -/
structure VClock where
  oid : Nat
  _vclock : List Nat
deriving DecidableEq

/-- The `_decoders` class dict of `VClock` (Python 3 branch): base64 decoding,
or the identity `bytes` conversion for `'binary'`. -/
def VClock.decoders (encoding : String) : Option (List Nat → List Nat) :=
  if encoding = "base64" then some b64decode
  else if encoding = "binary" then some (fun b => b)
  else none

/-- The `_encoders` class dict of `VClock` (Python 3 branch). -/
def VClock.encoders (encoding : String) : Option (List Nat → List Nat) :=
  if encoding = "base64" then some b64encode
  else if encoding = "binary" then some (fun b => b)
  else none

/-- `VClock.__init__`: `self._vclock = self._decoders[encoding](value)`; a
missing dict key raises `KeyError`. Returns the computed `_vclock` bytes. -/
def VClock.decode (value : List Nat) (encoding : String) : Except PyErr (List Nat) :=
  match VClock.decoders encoding with
  | some d => .ok (d value)
  | none => .error (.keyError encoding)

/-- `VClock.encode`: membership in `_encoders` is checked explicitly, raising
`ValueError('{} is not a valid vector clock encoding'.format(encoding))`
otherwise. -/
def VClock.encode (vclock : List Nat) (encoding : String) : Except PyErr (List Nat) :=
  match VClock.encoders encoding with
  | some e => .ok (e vclock)
  | none => .error (.valueError (encoding ++ " is not a valid vector clock encoding"))

/-! ### RiakObject -/

/-- The client-side replicated record (`RiakObject`). `cls` is the concrete
Python class tag (`__eq__` checks `isinstance(other, self.__class__)`; the
embedding compares class tags, i.e. subclassing is not modelled). The
constructor leaves one fresh sibling in place. -/
structure RiakObject where
  cls : Nat := 0
  key : Option String := none
  bucket : Bucket
  vclock : Option VClock := none
  siblings : List RiakContent := [RiakContent.new]
  _resolver : ResolverSlot := .pynone

/-- The `_getter` produced by `content_property(name)` (riak_object.py lines
22-27): `None` on zero siblings, the sole sibling's field on exactly one, and
`ConflictError()` otherwise. `name` is the delegated field's projection. -/
def content_get {V : Type} (name : RiakContent → V) (o : RiakObject) : Except PyErr (Option V) :=
  if o.siblings.length = 0 then .ok none
  else if o.siblings.length ≠ 1 then .error (.conflictError none)
  else .ok (some (name (o.siblings.headD {})))

/-- The `_setter` produced by `content_property(name)` (lines 13-20): an empty
object first materializes one fresh sibling, more than one sibling raises
`ConflictError()`, otherwise the field is set on the sole sibling. `assign` is
the delegated field's update. -/
def content_set {V : Type} (assign : V → RiakContent → RiakContent) (o : RiakObject)
    (value : V) : Except PyErr RiakObject :=
  let o1 := if o.siblings.length = 0 then { o with siblings := [RiakContent.new] } else o
  if o1.siblings.length ≠ 1 then .error (.conflictError none)
  else .ok { o1 with siblings := [assign value (o1.siblings.headD {})] }

/-- `content_method(name)` (lines 32-44): delegates a mutating method to the
sole sibling, raising `ConflictError()` on any other sibling count. -/
def content_method (m : RiakContent → RiakContent) (o : RiakObject) : Except PyErr RiakObject :=
  if o.siblings.length ≠ 1 then .error (.conflictError none)
  else .ok { o with siblings := [m (o.siblings.headD {})] }

/-- `data = content_property('data')` (line 141); the other nine delegated
properties (`encoded_data`, `charset`, `content_type`, `content_encoding`,
`last_modified`, `etag`, `usermeta`, `links`, `indexes`) are instances of the
same `content_get`, with their own field projection. -/
def RiakObject.data_get (o : RiakObject) : Except PyErr (Option PyVal) :=
  content_get RiakContent.data o

/-- Setter half of `data = content_property('data')`. -/
def RiakObject.data_set (o : RiakObject) (v : PyVal) : Except PyErr RiakObject :=
  content_set (fun v c => { c with data := v }) o v

/-- `add_index = content_method('add_index')` (line 192). -/
def RiakObject.add_index (o : RiakObject) (field value : String) : Except PyErr RiakObject :=
  content_method (fun c => c.add_index field value) o

/-- `remove_index = content_method('remove_index')` (line 193). -/
def RiakObject.remove_index (o : RiakObject) (field : String) (value : Option String) :
    Except PyErr RiakObject :=
  content_method (fun c => c.remove_index field value) o

/-- `remove_indexes = remove_index` (line 194): a straight alias. -/
def RiakObject.remove_indexes : RiakObject → String → Option String → Except PyErr RiakObject :=
  RiakObject.remove_index

/-- `set_index = content_method('set_index')` (line 195). -/
def RiakObject.set_index (o : RiakObject) (field : String) (values : List String) :
    Except PyErr RiakObject :=
  content_method (fun c => c.set_index field values) o

/-- `add_link = content_method('add_link')` (line 196). -/
def RiakObject.add_link (o : RiakObject) (bucket key tag : String) : Except PyErr RiakObject :=
  content_method (fun c => c.add_link bucket key tag) o

/-- `RiakObject._exists` (lines 198-206): zero siblings means not found, more
than one exists "even if all of the siblings are tombstones", one defers to
the sole sibling's flag. -/
def RiakObject._exists (o : RiakObject) : Bool :=
  if o.siblings.length = 0 then false
  else if o.siblings.length > 1 then true
  else (o.siblings.headD {}).«exists»

/-- `RiakObject._get_resolver` (lines 214-220). -/
def RiakObject._get_resolver (o : RiakObject) : Except PyErr ResolverSlot :=
  match o._resolver with
  | .callable f => .ok (.callable f)
  | .pynone => .ok o.bucket.resolver
  | .notCallable _ => .error (.typeError "resolver is not a function")

/-- `RiakObject._set_resolver` (lines 222-226). -/
def RiakObject._set_resolver (o : RiakObject) (value : ResolverSlot) :
    Except PyErr RiakObject :=
  match value with
  | .pynone => .ok { o with _resolver := .pynone }
  | .callable f => .ok { o with _resolver := .callable f }
  | .notCallable _ => .error (.typeError "resolver is not a function")

/-- `RiakObject.__hash__` (lines 126-127): `hash((self.key, self.bucket,
self.vclock))`. Python's `hash` is modelled injectively on that tuple; the
bucket and `VClock` objects define no value-based `__hash__`, so they
contribute their object identity (`oid`); `None` components hash as `None`. -/
def RiakObject.pyhash (o : RiakObject) : Option String × Nat × Option Nat :=
  (o.key, o.bucket.oid, o.vclock.map VClock.oid)

/-- `RiakObject.__eq__` (lines 129-133): `isinstance(other, self.__class__)`
and then comparison of the two `__hash__` values. -/
def RiakObject.eq (o other : RiakObject) : Bool :=
  if other.cls = o.cls then decide (o.pyhash = other.pyhash) else false

/-- Arguments of the `client.put` transport call (spec §6). -/
structure PutArgs where
  w : Option Int
  dw : Option Int
  pw : Option Int
  return_body : Bool
  if_none_match : Bool
  timeout : Option Int
deriving DecidableEq

/-- Arguments of the `client.get` transport call (spec §6); the final two
default to `None` in the collaborator's signature. -/
structure GetArgs where
  r : Option Int
  pr : Option Int
  timeout : Option Int
  basic_quorum : Option Bool
  notfound_ok : Option Bool
deriving DecidableEq

/-- Arguments of the `client.delete` transport call (spec §6). -/
structure DelArgs where
  r : Option Int
  w : Option Int
  dw : Option Int
  pr : Option Int
  pw : Option Int
  timeout : Option Int
deriving DecidableEq

/-- `RiakObject.store` (lines 233-269): the conflict guard, then the
`client.put` call (which may mutate the record in place — the transport
returns the updated record state), then `return self`. -/
def RiakObject.store (client_put : PutArgs → RiakObject → Except PyErr RiakObject)
    (o : RiakObject) (w dw pw : Option Int) (return_body if_none_match : Bool)
    (timeout : Option Int) : Except PyErr RiakObject :=
  if o.siblings.length ≠ 1 then
    .error (.conflictError (some "Attempting to store an invalid object, resolve the siblings first"))
  else
    match client_put ⟨w, dw, pw, return_body, if_none_match, timeout⟩ o with
    | .ok o2 => .ok o2
    | .error e => .error e

/-- `RiakObject.reload` (lines 271-300): the source calls
`self.client.get(self, r=r, pr=pr, timeout=timeout)`, so the transport's
`basic_quorum` and `notfound_ok` parameters take their default `None` no
matter which values were given to `reload`; then `return self`. -/
def RiakObject.reload (client_get : GetArgs → RiakObject → Except PyErr RiakObject)
    (o : RiakObject) (r pr timeout : Option Int)
    (basic_quorum notfound_ok : Option Bool) : Except PyErr RiakObject :=
  match client_get ⟨r, pr, timeout, none, none⟩ o with
  | .ok o2 => .ok o2
  | .error e => .error e

/-- `RiakObject.clear` (lines 333-340): `self.siblings = []`. -/
def RiakObject.clear (o : RiakObject) : RiakObject :=
  { o with siblings := [] }

/-- `RiakObject.delete` (lines 302-331): the `client.delete` call, then
`self.clear()`, then `return self`. An exception raised by the transport
propagates before the clear runs. -/
def RiakObject.delete (client_delete : DelArgs → RiakObject → Except PyErr RiakObject)
    (o : RiakObject) (r w dw pr pw timeout : Option Int) : Except PyErr RiakObject :=
  match client_delete ⟨r, w, dw, pr, pw, timeout⟩ o with
  | .ok o2 => .ok o2.clear
  | .error e => .error e

/-! ### base64 lemmas -/

/-- `b64val` inverts `b64char` on sextet values. -/
theorem b64val_b64char : ∀ n < 64, b64val (b64char n) = n := by decide

/-- The alphabet never produces the padding character `'='` (61). -/
theorem b64char_ne_pad : ∀ n < 64, b64char n ≠ 61 := by decide

/-- `b64val` always yields a sextet value. -/
theorem b64val_lt (c : Nat) : b64val c < 64 := by
  unfold b64val
  split
  · omega
  split
  · omega
  split
  · omega
  split <;> omega

/-- Base64 decoding inverts base64 encoding on every byte sequence. -/
theorem b64decode_b64encode : ∀ (v : List Nat), (∀ x ∈ v, x < 256) →
    b64decode (b64encode v) = v
  | [], _ => rfl
  | [a], h => by
    have ha : a < 256 := h a (by simp)
    have h1 : a / 4 < 64 := by omega
    have h2 : (a % 4) * 16 < 64 := by omega
    simp [b64encode, b64decode, b64val_b64char _ h1, b64val_b64char _ h2]
    omega
  | [a, b], h => by
    have ha : a < 256 := h a (by simp)
    have hb : b < 256 := h b (by simp)
    have h1 : a / 4 < 64 := by omega
    have h2 : (a % 4) * 16 + b / 16 < 64 := by omega
    have h3 : (b % 16) * 4 < 64 := by omega
    have hne : b64char ((b % 16) * 4) ≠ 61 := b64char_ne_pad _ h3
    simp [b64encode, b64decode, hne, b64val_b64char _ h1, b64val_b64char _ h2,
      b64val_b64char _ h3]
    constructor <;> omega
  | a :: b :: c :: rest, h => by
    have ha : a < 256 := h a (by simp)
    have hb : b < 256 := h b (by simp)
    have hc : c < 256 := h c (by simp)
    have h1 : a / 4 < 64 := by omega
    have h2 : (a % 4) * 16 + b / 16 < 64 := by omega
    have h3 : (b % 16) * 4 + c / 64 < 64 := by omega
    have h4 : c % 64 < 64 := by omega
    have hne3 : b64char ((b % 16) * 4 + c / 64) ≠ 61 := b64char_ne_pad _ h3
    have hne4 : b64char (c % 64) ≠ 61 := b64char_ne_pad _ h4
    have ih := b64decode_b64encode rest (fun x hx => h x (by simp [hx]))
    simp [b64encode, b64decode, hne3, hne4, b64val_b64char _ h1, b64val_b64char _ h2,
      b64val_b64char _ h3, b64val_b64char _ h4, ih]
    refine ⟨by omega, by omega, by omega⟩

/-- Everything base64 decoding produces is a byte. -/
theorem b64decode_lt : ∀ (l : List Nat), ∀ x ∈ b64decode l, x < 256
  | c1 :: c2 :: c3 :: c4 :: rest, x, hx => by
    have v1 := b64val_lt c1
    have v2 := b64val_lt c2
    have v3 := b64val_lt c3
    have v4 := b64val_lt c4
    unfold b64decode at hx
    split at hx
    · simp at hx
      omega
    · split at hx
      · simp at hx
        rcases hx with hx | hx <;> omega
      · simp at hx
        rcases hx with hx | hx | hx | hx
        · omega
        · omega
        · omega
        · exact b64decode_lt rest x hx
  | [], x, hx => by simp [b64decode] at hx
  | [c1], x, hx => by simp [b64decode] at hx
  | [c1, c2], x, hx => by simp [b64decode] at hx
  | [c1, c2, c3], x, hx => by simp [b64decode] at hx

/-! ### Helper equations for the VClock tables -/

/-- Decoding with `'base64'` applies `b64decode`. -/
theorem vclock_decode_base64 (b : List Nat) : VClock.decode b "base64" = .ok (b64decode b) := rfl

/-- Decoding with `'binary'` is the identity `bytes` conversion. -/
theorem vclock_decode_binary (b : List Nat) : VClock.decode b "binary" = .ok b := rfl

/-- Encoding with `'base64'` applies `b64encode`. -/
theorem vclock_encode_base64 (b : List Nat) : VClock.encode b "base64" = .ok (b64encode b) := rfl

/-- Encoding with `'binary'` is the identity `bytes` conversion. -/
theorem vclock_encode_binary (b : List Nat) : VClock.encode b "binary" = .ok b := rfl

/-! ### Concrete fixtures used by witnesses and counterexamples -/

/-- A concrete bucket collaborator. -/
def bucket0 : Bucket := ⟨0, "b", .pynone⟩

/-- A concrete conflicted record: two siblings with differing data. -/
def objConflicted : RiakObject :=
  { bucket := bucket0, key := some "k",
    siblings := [{ data := .str "a" }, { data := .str "b" }] }

/-- A concrete record with zero siblings (fetched and not found, or cleared). -/
def objEmpty : RiakObject :=
  { bucket := bucket0, key := some "k", siblings := [] }

/-- A concrete causality token object with raw bytes `[1, 2, 3]`. -/
def vcA : VClock := ⟨1, [1, 2, 3]⟩

/-- A distinct causality token object with the same raw bytes `[1, 2, 3]`. -/
def vcB : VClock := ⟨2, [1, 2, 3]⟩

/-- A record holding the token object `vcA`. -/
def objVcA : RiakObject := { bucket := bucket0, key := some "k", vclock := some vcA }

/-- A record holding the byte-equal but distinct token object `vcB`. -/
def objVcB : RiakObject := { bucket := bucket0, key := some "k", vclock := some vcB }

/-- A `client.delete` transport call that raises (a network failure). -/
def failingDelete : DelArgs → RiakObject → Except PyErr RiakObject :=
  fun _ _ => .error (.valueError "network error")

/-! ### Claims -/

/-- Claim C1: on every record holding more than one Version, every delegated
field getter and setter (`content_property`, quantified over the delegated
field), every structural mutator (`content_method`, quantified over the
delegated method), and `store()` raise `ConflictError`, while `reload()` and
`delete()` still succeed — they go through exactly when the transport call
does, independent of the sibling count. -/
theorem conflict_blocks_access (o : RiakObject) (h : 1 < o.siblings.length) :
    (∀ (V : Type) (name : RiakContent → V),
      content_get name o = .error (.conflictError none)) ∧
    (∀ (V : Type) (assign : V → RiakContent → RiakContent) (v : V),
      content_set assign o v = .error (.conflictError none)) ∧
    (∀ m : RiakContent → RiakContent,
      content_method m o = .error (.conflictError none)) ∧
    (∀ (client_put : PutArgs → RiakObject → Except PyErr RiakObject)
      (w dw pw : Option Int) (return_body if_none_match : Bool) (timeout : Option Int),
      RiakObject.store client_put o w dw pw return_body if_none_match timeout =
        .error (.conflictError
          (some "Attempting to store an invalid object, resolve the siblings first"))) ∧
    (∀ (client_get : GetArgs → RiakObject → Except PyErr RiakObject)
      (r pr timeout : Option Int) (basic_quorum notfound_ok : Option Bool),
      (RiakObject.reload client_get o r pr timeout basic_quorum notfound_ok).isOk =
        (client_get ⟨r, pr, timeout, none, none⟩ o).isOk) ∧
    (∀ (client_delete : DelArgs → RiakObject → Except PyErr RiakObject)
      (r w dw pr pw timeout : Option Int),
      (RiakObject.delete client_delete o r w dw pr pw timeout).isOk =
        (client_delete ⟨r, w, dw, pr, pw, timeout⟩ o).isOk) := by
  have h0 : ¬ o.siblings.length = 0 := by omega
  have h1 : ¬ o.siblings.length = 1 := by omega
  refine ⟨?_, ?_, ?_, ?_, ?_, ?_⟩
  · intro V name
    simp [content_get, h0, h1]
  · intro V assign v
    simp [content_set, h0, h1]
  · intro m
    simp [content_method, h1]
  · intro p w dw pw rb inm t
    simp [RiakObject.store, h1]
  · intro g r pr t bq nfo
    unfold RiakObject.reload
    cases hg : g ⟨r, pr, t, none, none⟩ o <;> rfl
  · intro g r w dw pr pw t
    unfold RiakObject.delete
    cases hg : g ⟨r, w, dw, pr, pw, t⟩ o <;> rfl

/-- Witness for C1 at a concrete conflicted record and a concrete transport. -/
theorem conflict_blocks_access_witness :
    (1 < objConflicted.siblings.length) ∧
    content_get RiakContent.data objConflicted = .error (.conflictError none) ∧
    RiakObject.data_set objConflicted (.str "x") = .error (.conflictError none) ∧
    RiakObject.add_index objConflicted "f" "v" = .error (.conflictError none) ∧
    RiakObject.store (fun _ o2 => .ok o2) objConflicted none none none true false none =
      .error (.conflictError
        (some "Attempting to store an invalid object, resolve the siblings first")) ∧
    (RiakObject.reload (fun _ o2 => .ok o2) objConflicted none none none none none).isOk = true ∧
    (RiakObject.delete (fun _ o2 => .ok o2) objConflicted none none none none none none).isOk
      = true := by
  have h : 1 < objConflicted.siblings.length := by decide
  have T := conflict_blocks_access objConflicted h
  exact ⟨h, T.1 PyVal RiakContent.data,
    T.2.1 PyVal (fun v c => { c with data := v }) (.str "x"),
    T.2.2.1 (fun c => c.add_index "f" "v"),
    T.2.2.2.1 (fun _ o2 => .ok o2) none none none true false none,
    (T.2.2.2.2.1 (fun _ o2 => .ok o2) none none none none none).trans rfl,
    (T.2.2.2.2.2 (fun _ o2 => .ok o2) none none none none none none).trans rfl⟩

/-- Claim C2 (code bug): for every transport, record, and all argument values,
`reload` hands the transport a `get` call carrying only `r`, `pr` and
`timeout` — the `basic_quorum` and `notfound_ok` arguments are dropped, so the
transport sees its defaults (`None`) no matter what was passed — and the
transport's resulting record state is returned. The claim (and `reload`'s own
docstring) say the two policy flags are forwarded. -/
theorem reload_drops_quorum_flags :
    ∀ (client_get : GetArgs → RiakObject → Except PyErr RiakObject) (o : RiakObject)
      (r pr timeout : Option Int) (basic_quorum notfound_ok : Option Bool),
      RiakObject.reload client_get o r pr timeout basic_quorum notfound_ok =
        client_get ⟨r, pr, timeout, none, none⟩ o := by
  intro g o r pr t bq nfo
  unfold RiakObject.reload
  cases hg : g ⟨r, pr, t, none, none⟩ o <;> rfl

/-- Claim C3: `exists` is false iff there are zero Versions, or exactly one
Version and it is a tombstone; in every other case — more than one Version
(even all tombstones), or a single non-tombstone Version — it is true. -/
theorem exists_false_iff (o : RiakObject) :
    o._exists = false ↔
      o.siblings.length = 0 ∨ ∃ s, o.siblings = [s] ∧ s.«exists» = false := by
  rcases hs : o.siblings with _ | ⟨a, _ | ⟨b, l⟩⟩ <;>
    simp [RiakObject._exists, hs]

/-- Claim C4 counterexample: two records of the same class with equal keys,
the same bucket, and byte-for-byte equal causality tokens that are distinct
objects compare unequal — `VClock` defines no value equality, so tokens
contribute object identity, not raw bytes, to `__hash__`/`__eq__`. -/
theorem eq_bytes_counterexample :
    objVcA.key = objVcB.key ∧ objVcA.bucket = objVcB.bucket ∧
    objVcA.vclock.map VClock._vclock = objVcB.vclock.map VClock._vclock ∧
    RiakObject.eq objVcA objVcB = false := by
  refine ⟨rfl, rfl, rfl, by decide⟩

/-- Claim C4 as amended: two records compare equal iff their class tags, keys,
bucket objects, and causality-token *objects* (by identity) coincide; in
particular a record whose token alone was replaced (e.g. by a reload)
compares unequal to its earlier self, and records of different concrete
classes are never equal. -/
theorem eq_iff_identity (o1 o2 : RiakObject) :
    RiakObject.eq o1 o2 = true ↔
      o2.cls = o1.cls ∧ o1.key = o2.key ∧ o1.bucket.oid = o2.bucket.oid ∧
        o1.vclock.map VClock.oid = o2.vclock.map VClock.oid := by
  unfold RiakObject.eq RiakObject.pyhash
  split
  · simp [Prod.ext_iff, *]
  · simp [*]

/-- Claim C5: on a record with zero Versions every delegated field getter
returns `None` without raising, and every delegated field setter materializes
exactly one fresh Version, sets the field on it, and leaves the record with
one Version. -/
theorem empty_get_set (o : RiakObject) (h : o.siblings = []) :
    (∀ (V : Type) (name : RiakContent → V), content_get name o = .ok none) ∧
    (∀ (V : Type) (assign : V → RiakContent → RiakContent) (v : V),
      content_set assign o v = .ok { o with siblings := [assign v RiakContent.new] } ∧
      ({ o with siblings := [assign v RiakContent.new] } : RiakObject).siblings.length = 1) := by
  constructor
  · intro V name
    simp [content_get, h]
  · intro V assign v
    constructor
    · simp [content_set, h, RiakContent.new]
    · rfl

/-- Witness for C5 at a concrete empty record and the `data` field. -/
theorem empty_get_set_witness :
    (objEmpty.siblings = []) ∧
    content_get RiakContent.data objEmpty = .ok none ∧
    RiakObject.data_set objEmpty (.str "hello") =
      .ok { objEmpty with siblings := [{ RiakContent.new with data := .str "hello" }] } ∧
    ({ objEmpty with
        siblings := [{ RiakContent.new with data := .str "hello" }] } : RiakObject).siblings.length
      = 1 := by
  have T := empty_get_set objEmpty rfl
  exact ⟨rfl, T.1 PyVal RiakContent.data,
    (T.2 PyVal (fun v c => { c with data := v }) (.str "hello")).1,
    (T.2 PyVal (fun v c => { c with data := v }) (.str "hello")).2⟩

/-- Claim C6 counterexample: `delete()` on a conflicted record with a
transport call that raises does *not* leave the record in the cleared state —
the exception propagates before `self.clear()` runs, and no record is
returned at all. -/
theorem delete_failure_counterexample :
    (RiakObject.delete failingDelete objConflicted none none none none none none).isOk = false ∧
    RiakObject.delete failingDelete objConflicted none none none none none none =
      .error (.valueError "network error") :=
  ⟨rfl, rfl⟩

/-- Claim C6 as amended: whenever the transport call returns (whatever record
state it reports), `delete()` clears the record to zero Versions with
`exists == False` and returns it — conflicted or not; if the transport call
raises, the exception propagates unchanged and the clear never happens. -/
theorem delete_clears_on_return (o : RiakObject)
    (client_delete : DelArgs → RiakObject → Except PyErr RiakObject)
    (r w dw pr pw timeout : Option Int) :
    (∀ o2, client_delete ⟨r, w, dw, pr, pw, timeout⟩ o = .ok o2 →
      RiakObject.delete client_delete o r w dw pr pw timeout = .ok o2.clear ∧
      o2.clear.siblings.length = 0 ∧ o2.clear._exists = false) ∧
    (∀ e, client_delete ⟨r, w, dw, pr, pw, timeout⟩ o = .error e →
      RiakObject.delete client_delete o r w dw pr pw timeout = .error e) := by
  constructor
  · intro o2 hg
    unfold RiakObject.delete
    rw [hg]
    exact ⟨rfl, rfl, rfl⟩
  · intro e hg
    unfold RiakObject.delete
    rw [hg]

/-- Witness for C6 (amended) at a concrete conflicted record and a transport
that returns. -/
theorem delete_clears_on_return_witness :
    RiakObject.delete (fun _ o2 => .ok o2) objConflicted none none none none none none =
      .ok objConflicted.clear ∧
    objConflicted.clear.siblings.length = 0 ∧ objConflicted.clear._exists = false :=
  (delete_clears_on_return objConflicted (fun _ o2 => .ok o2)
    none none none none none none).1 objConflicted rfl

/-- Claim C7 counterexample: decoding with the unsupported encoding name
`"hex"` raises `KeyError` (an unguarded dict subscript), while encoding with
`"hex"` raises `ValueError` — both fail, but not with the same error. -/
theorem hex_encoding_counterexample :
    VClock.decode [1, 2, 3] "hex" = .error (.keyError "hex") ∧
    VClock.encode [1, 2, 3] "hex" =
      .error (.valueError "hex is not a valid vector clock encoding") ∧
    PyErr.keyError "hex" ≠
      PyErr.valueError "hex is not a valid vector clock encoding" := by
  refine ⟨rfl, rfl, by decide⟩

/-- Claim C7 as amended: for every byte sequence and every encoding name other
than `'base64'` and `'binary'`, decode fails with a `KeyError` naming the
encoding, and encode fails with a `ValueError` carrying the formatted
message — both always fail, but with different error classes. -/
theorem unsupported_encoding_errors (b : List Nat) (enc : String)
    (h1 : enc ≠ "base64") (h2 : enc ≠ "binary") :
    VClock.decode b enc = .error (.keyError enc) ∧
    VClock.encode b enc =
      .error (.valueError (enc ++ " is not a valid vector clock encoding")) := by
  constructor
  · simp [VClock.decode, VClock.decoders, h1, h2]
  · simp [VClock.encode, VClock.encoders, h1, h2]

/-- Witness for C7 (amended) at the encoding name `"hex"`. -/
theorem unsupported_encoding_errors_witness :
    ("hex" : String) ≠ "base64" ∧ ("hex" : String) ≠ "binary" ∧
    (VClock.decode [1, 2, 3] "hex" = .error (.keyError "hex") ∧
      VClock.encode [1, 2, 3] "hex" =
        .error (.valueError ("hex" ++ " is not a valid vector clock encoding"))) :=
  ⟨by decide, by decide,
    unsupported_encoding_errors [1, 2, 3] "hex" (by decide) (by decide)⟩

/-- Claim C8: for all supported encodings `e1`, `e2` and every byte sequence
`b` accepted by `e1`, decoding `b` with `e1`, encoding the resulting token
with `e2` and decoding that again with `e2` yields a token with the same raw
bytes as decoding `b` with `e1` directly. -/
theorem vclock_roundtrip (e1 e2 : String) (b t : List Nat)
    (he1 : e1 = "base64" ∨ e1 = "binary") (he2 : e2 = "base64" ∨ e2 = "binary")
    (hb : ∀ x ∈ b, x < 256) (hdec : VClock.decode b e1 = .ok t) :
    ∃ enc, VClock.encode t e2 = .ok enc ∧ VClock.decode enc e2 = .ok t := by
  have ht : ∀ x ∈ t, x < 256 := by
    rcases he1 with rfl | rfl
    · rw [vclock_decode_base64] at hdec
      injection hdec with hv
      subst hv
      exact fun x hx => b64decode_lt b x hx
    · rw [vclock_decode_binary] at hdec
      injection hdec with hv
      subst hv
      exact hb
  rcases he2 with rfl | rfl
  · exact ⟨b64encode t, vclock_encode_base64 t, by
      rw [vclock_decode_base64, b64decode_b64encode t ht]⟩
  · exact ⟨t, vclock_encode_binary t, vclock_decode_binary t⟩

/-- Witness for C8: `"Bw=="` (bytes `[66, 119, 61, 61]`) decodes under base64
to the token bytes `[7]`, which round-trip through the binary encoding. -/
theorem vclock_roundtrip_witness :
    (∀ x ∈ [66, 119, 61, 61], x < 256) ∧
    (VClock.decode [66, 119, 61, 61] "base64" = .ok [7]) ∧
    ∃ enc, VClock.encode [7] "binary" = .ok enc ∧ VClock.decode enc "binary" = .ok [7] :=
  ⟨by decide, rfl,
    vclock_roundtrip "base64" "binary" [66, 119, 61, 61] [7]
      (Or.inl rfl) (Or.inr rfl) (by decide) rfl⟩

/-- Claim C9: reading the resolver yields the record-level resolver when it is
set and callable, the bucket's configured resolver when the record-level slot
is `None`, and a `TypeError` when the slot holds a non-callable non-`None`
value; setting accepts `None` (clearing the override) or any callable, and
raises the same `TypeError` for anything else. -/
theorem resolver_contract (o : RiakObject) (f : Resolver) (v : PyVal) :
    RiakObject._get_resolver { o with _resolver := .callable f } = .ok (.callable f) ∧
    RiakObject._get_resolver { o with _resolver := .pynone } = .ok o.bucket.resolver ∧
    RiakObject._get_resolver { o with _resolver := .notCallable v } =
      .error (.typeError "resolver is not a function") ∧
    RiakObject._set_resolver o .pynone = .ok { o with _resolver := .pynone } ∧
    RiakObject._set_resolver o (.callable f) = .ok { o with _resolver := .callable f } ∧
    RiakObject._set_resolver o (.notCallable v) =
      .error (.typeError "resolver is not a function") :=
  ⟨rfl, rfl, rfl, rfl, rfl, rfl⟩

/-- Claim C10: on a record with zero Versions the structural mutators
(`add_index`, `remove_index`, `remove_indexes`, `set_index`, `add_link`)
raise `ConflictError` instead of materializing a fresh Version the way the
delegated field setters do; a delegated method goes through exactly when one
Version is present. -/
theorem structural_mutators_need_one_version (o : RiakObject) :
    (o.siblings = [] →
      (∀ field value, RiakObject.add_index o field value = .error (.conflictError none)) ∧
      (∀ field value, RiakObject.remove_index o field value = .error (.conflictError none)) ∧
      (∀ field value, RiakObject.remove_indexes o field value = .error (.conflictError none)) ∧
      (∀ field values, RiakObject.set_index o field values = .error (.conflictError none)) ∧
      (∀ b k tag, RiakObject.add_link o b k tag = .error (.conflictError none))) ∧
    (∀ m : RiakContent → RiakContent,
      (content_method m o).isOk = true ↔ o.siblings.length = 1) := by
  constructor
  · intro h
    have h1 : ¬ o.siblings.length = 1 := by rw [h]; simp
    refine ⟨fun f v => ?_, fun f v => ?_, fun f v => ?_, fun f vs => ?_, fun b k t => ?_⟩ <;>
      simp [RiakObject.add_index, RiakObject.remove_index, RiakObject.remove_indexes,
        RiakObject.set_index, RiakObject.add_link, content_method, h1]
  · intro m
    by_cases h1 : o.siblings.length = 1 <;> simp [content_method, h1, Except.isOk, Except.toBool]

/-- Witness for C10 at concrete empty and one-sibling records. -/
theorem structural_mutators_need_one_version_witness :
    (objEmpty.siblings = []) ∧
    RiakObject.add_index objEmpty "f" "v" = .error (.conflictError none) ∧
    RiakObject.add_link objEmpty "b" "k" "t" = .error (.conflictError none) ∧
    ((content_method (fun c => c.add_index "f" "v") objConflicted).isOk = true ↔
      objConflicted.siblings.length = 1) :=
  ⟨rfl, ((structural_mutators_need_one_version objEmpty).1 rfl).1 "f" "v",
    ((structural_mutators_need_one_version objEmpty).1 rfl).2.2.2.2 "b" "k" "t",
    (structural_mutators_need_one_version objConflicted).2 (fun c => c.add_index "f" "v")⟩

end Riak
